import Mathlib

/-!
Verification of the terminal color model manager (`src/browser/ColorManager.ts`).

The development shallowly embeds the data model and the operations of the
Color Manager.  Code present in the repository (`ColorManager.ts`) is
transcribed directly; collaborator modules that are not part of the
repository slice (`common/Color`'s `channels`/`color`/`css` helpers, the
contrast cache, the browser canvas color engine, and the `ColorIndex`
sentinel constants from `common/Types`) are modelled from the spec, as
marked on each definition.

Machine integers: RGBA values are `uint32` in the source; they are modelled
as `Nat` with an explicit `% 2^32`.  JavaScript's `Math.round` on the
fractional alpha is modelled on `ℚ` as `⌊q + 1/2⌋` (round half towards
positive infinity, as in JS).
-/

/-- A color value: packed 0xRRGGBBAA integer plus a CSS string
(`IColor` from `common/Types`, declared alongside the code under test). -/
@[ext]
structure IColor where
  css : String
  rgba : Nat
deriving DecidableEq, Repr

/-- JavaScript `Math.round` on a rational: round half towards positive infinity. -/
def jsRound (q : ℚ) : ℤ :=
  ⌊q + 1 / 2⌋

namespace channels

/-- Modelled from the spec: hex digit for the `toCss` channel formatting. -/
def hexChar (n : Nat) : Char :=
  if n = 0 then '0' else if n = 1 then '1' else if n = 2 then '2'
  else if n = 3 then '3' else if n = 4 then '4' else if n = 5 then '5'
  else if n = 6 then '6' else if n = 7 then '7' else if n = 8 then '8'
  else if n = 9 then '9' else if n = 10 then 'a' else if n = 11 then 'b'
  else if n = 12 then 'c' else if n = 13 then 'd' else if n = 14 then 'e'
  else 'f'

/-- Modelled from the spec: two-digit lowercase hex of a channel byte. -/
def toPaddedHex (n : Nat) : String :=
  String.mk [hexChar (n / 16 % 16), hexChar (n % 16)]

/-- Modelled from the spec: `channels.toRgba(r, g, b, a) → uint32`
(`common/Color`, not in the repository slice); packs `0xRRGGBBAA`. -/
def toRgba (r g b a : Nat) : Nat :=
  (r * 16777216 + g * 65536 + b * 256 + a) % 4294967296

/-- Modelled from the spec: `channels.toRgba(r, g, b)` with the default fully
opaque alpha. -/
def toRgba3 (r g b : Nat) : Nat :=
  toRgba r g b 255

/-- Modelled from the spec: `channels.toCss(r, g, b) → string`, a lowercase
`#rrggbb` hex string. -/
def toCss3 (r g b : Nat) : String :=
  "#" ++ toPaddedHex r ++ toPaddedHex g ++ toPaddedHex b

/-- Modelled from the spec: `channels.toCss(r, g, b, a) → string`, a lowercase
`#rrggbbaa` hex string. -/
def toCss4 (r g b a : Nat) : String :=
  "#" ++ toPaddedHex r ++ toPaddedHex g ++ toPaddedHex b ++ toPaddedHex a

end channels

/-- Red channel byte of a packed RGBA value. -/
def redOf (c : IColor) : Nat := c.rgba / 16777216 % 256

/-- Green channel byte of a packed RGBA value. -/
def greenOf (c : IColor) : Nat := c.rgba / 65536 % 256

/-- Blue channel byte of a packed RGBA value. -/
def blueOf (c : IColor) : Nat := c.rgba / 256 % 256

/-- Alpha channel byte of a packed RGBA value. -/
def alphaOf (c : IColor) : Nat := c.rgba % 256

namespace color

/-- Modelled from the spec: `color.isOpaque(color) → bool` tests whether the
alpha byte is `0xFF`. -/
def isOpaqueColor (c : IColor) : Bool :=
  alphaOf c = 255

/-- Modelled from the spec: `color.opacity(color, alpha) → Color` replaces the
alpha channel by `Math.round(alpha * 0xFF)`. -/
def opacity (c : IColor) (a : ℚ) : IColor :=
  let ab : Nat := (jsRound (a * 255)).toNat
  { css := channels.toCss4 (redOf c) (greenOf c) (blueOf c) ab
    rgba := channels.toRgba (redOf c) (greenOf c) (blueOf c) ab }

/-- Modelled from the spec: `color.blend(bg, fg) → Color` alpha-composites the
foreground over the background; a fully opaque foreground is returned as is. -/
def blend (bg fg : IColor) : IColor :=
  if isOpaqueColor fg then fg
  else
    let a : ℚ := (alphaOf fg : ℚ) / 255
    let r : Nat := ((redOf bg : ℤ) + jsRound (((redOf fg : ℚ) - (redOf bg : ℚ)) * a)).toNat
    let g : Nat := ((greenOf bg : ℤ) + jsRound (((greenOf fg : ℚ) - (greenOf bg : ℚ)) * a)).toNat
    let b : Nat := ((blueOf bg : ℤ) + jsRound (((blueOf fg : ℚ) - (blueOf bg : ℚ)) * a)).toNat
    { css := channels.toCss3 r g b, rgba := channels.toRgba3 r g b }

end color

namespace css

/-- Modelled from the spec: value of one hex digit character. -/
def hexVal (c : Char) : Nat :=
  if c = '1' then 1 else if c = '2' then 2 else if c = '3' then 3
  else if c = '4' then 4 else if c = '5' then 5 else if c = '6' then 6
  else if c = '7' then 7 else if c = '8' then 8 else if c = '9' then 9
  else if c = 'a' then 10 else if c = 'b' then 11 else if c = 'c' then 12
  else if c = 'd' then 13 else if c = 'e' then 14 else if c = 'f' then 15
  else 0

/-- Modelled from the spec: numeric value of a list of hex digit characters. -/
def hexNum (cs : List Char) : Nat :=
  cs.foldl (fun acc c => acc * 16 + hexVal c) 0

/-- Modelled from the spec: `css.toColor` (`common/Color`, not in the
repository slice) on a `#rrggbb` string: the packed value is the six hex
digits shifted left by the fully opaque alpha byte, and the CSS string is the
input itself. -/
def toColor (s : String) : IColor :=
  { css := s
    rgba := (hexNum (s.toList.drop 1) * 256 + 255) % 4294967296 }

end css

/-- Built-in default foreground (`DEFAULT_FOREGROUND` in the source). -/
def DEFAULT_FOREGROUND : IColor := css.toColor "#ffffff"

/-- Built-in default background (`DEFAULT_BACKGROUND` in the source). -/
def DEFAULT_BACKGROUND : IColor := css.toColor "#000000"

/-- Built-in default cursor color (`DEFAULT_CURSOR` in the source). -/
def DEFAULT_CURSOR : IColor := css.toColor "#ffffff"

/-- Built-in default cursor accent color (`DEFAULT_CURSOR_ACCENT`). -/
def DEFAULT_CURSOR_ACCENT : IColor := css.toColor "#000000"

/-- Built-in default transparent selection color (`DEFAULT_SELECTION`),
a literal in the source. -/
def DEFAULT_SELECTION : IColor :=
  { css := "rgba(255, 255, 255, 0.3)", rgba := 0xFFFFFF4D }

/-- The six-value step table `v` of the 6×6×6 color cube (a local constant of
the `DEFAULT_ANSI_COLORS` generator in the source). -/
def v : List Nat := [0x00, 0x5f, 0x87, 0xaf, 0xd7, 0xff]

/-- The default 256-entry ANSI palette (`DEFAULT_ANSI_COLORS`): sixteen
curated colors, the 216-entry color cube, then 24 greys.  For cube index `i`
the source computes `v[(i / 36) % 6 | 0]`, `v[(i / 6) % 6 | 0]`, `v[i % 6]`;
with `i < 216` the float truncation `| 0` coincides with `Nat` division. -/
def DEFAULT_ANSI_COLORS : List IColor :=
  [css.toColor "#2e3436",
   css.toColor "#cc0000",
   css.toColor "#4e9a06",
   css.toColor "#c4a000",
   css.toColor "#3465a4",
   css.toColor "#75507b",
   css.toColor "#06989a",
   css.toColor "#d3d7cf",
   css.toColor "#555753",
   css.toColor "#ef2929",
   css.toColor "#8ae234",
   css.toColor "#fce94f",
   css.toColor "#729fcf",
   css.toColor "#ad7fa8",
   css.toColor "#34e2e2",
   css.toColor "#eeeeec"]
  ++ (List.range 216).map (fun i =>
      let r := v.getD (i / 36 % 6) 0
      let g := v.getD (i / 6 % 6) 0
      let b := v.getD (i % 6) 0
      { css := channels.toCss3 r g b, rgba := channels.toRgba3 r g b })
  ++ (List.range 24).map (fun i =>
      let c := 8 + i * 10
      { css := channels.toCss3 c c c, rgba := channels.toRgba3 c c c })

/-- Modelled from the spec: the outcome of submitting a color string to the
host environment's color-serialization engine (the 1×1 canvas validation
surface, external to the repository).  `pr`/`pg`/`pb`/`pa` are the channel
bytes read back from the rendered pixel (`getImageData`); `serR`/`serG`/
`serB`/`serA` are the numeric components of the canonical serialized
`rgba(r, g, b, a)` form (`serA` the fractional alpha); `serializedHex` is the
canonical lowercase `#rrggbb` serialization used when the color is fully
opaque. -/
structure EngineColor where
  pr : Nat
  pg : Nat
  pb : Nat
  pa : Nat
  serR : Nat
  serG : Nat
  serB : Nat
  serA : ℚ
  serializedHex : String
deriving DecidableEq, Repr

/-- Modelled from the spec: the host color engine maps an input string either
to `none` (the string is rejected: assigning it to `fillStyle` does not
round-trip to a string) or to the resolved `EngineColor`. -/
def Engine : Type := String → Option EngineColor

/-- The sentinel invalid-marker color used by `setTheme` for optional
`selectionForeground` detection (`nullColor` in the source). -/
def nullColor : IColor := { css := "", rgba := 0 }

/-- Warning text of the invalid-color diagnostic in `_parseColor`. -/
def warnInvalid (s : String) (fallbackCss : String) : String :=
  "Color: " ++ s ++ " is invalid using fallback " ++ fallbackCss

/-- Warning text of the disallowed-transparency diagnostic in `_parseColor`. -/
def warnTransparent (s : String) (fallbackCss : String) : String :=
  "Color: " ++ s ++ " is using transparency, but allowTransparency is false. " ++
    "Using fallback " ++ fallbackCss ++ "."

/-- The validation oracle `ColorManager._parseColor`, at its declared (typed)
signature: the fallback is a defined `IColor`.  Returns the resolved color
together with the list of emitted console diagnostics.  Branches follow the
source: undefined input returns the fallback; a rejected string logs and
returns the fallback; a non-opaque rendered pixel either logs and returns the
fallback (transparency disallowed) or rebuilds the RGBA from the serialized
components with `Math.round(a * 255)` and keeps the original input string as
CSS; a fully opaque pixel returns the canonical serialized string with the
RGBA packed from the rendered pixel bytes. -/
def parseColor (e : Engine) (cssIn : Option String) (fallback : IColor)
    (allowTransparency : Bool) : IColor × List String :=
  match cssIn with
  | none => (fallback, [])
  | some s =>
    match e s with
    | none => (fallback, [warnInvalid s fallback.css])
    | some ec =>
      if ec.pa ≠ 255 then
        if !allowTransparency then
          (fallback, [warnTransparent s fallback.css])
        else
          ({ rgba := channels.toRgba ec.serR ec.serG ec.serB (jsRound (ec.serA * 255)).toNat
             css := s }, [])
      else
        ({ css := ec.serializedHex
           rgba := channels.toRgba ec.pr ec.pg ec.pb ec.pa }, [])

/-- Fallback CSS text at the runtime (untyped) call sites of `_parseColor`:
when the fallback is `undefined` the source's diagnostic interpolation
`fallback.css` has no defined value (it would throw); no verified claim
exercises that corner, and it is rendered here as the empty string. -/
def fallbackCssText : Option IColor → String
  | some f => f.css
  | none => ""

/-- The validation oracle `ColorManager._parseColor` at its runtime (untyped)
signature, where the fallback may be `undefined` — as happens at the
`extendedAnsi` call site when the loop index runs past the end of
`DEFAULT_ANSI_COLORS`.  Same branch structure as `parseColor`. -/
def parseColorOpt (e : Engine) (cssIn : Option String) (fallback : Option IColor)
    (allowTransparency : Bool) : Option IColor × List String :=
  match cssIn with
  | none => (fallback, [])
  | some s =>
    match e s with
    | none => (fallback, [warnInvalid s (fallbackCssText fallback)])
    | some ec =>
      if ec.pa ≠ 255 then
        if !allowTransparency then
          (fallback, [warnTransparent s (fallbackCssText fallback)])
        else
          (some { rgba := channels.toRgba ec.serR ec.serG ec.serB (jsRound (ec.serA * 255)).toNat
                  css := s }, [])
      else
        (some { css := ec.serializedHex
                rgba := channels.toRgba ec.pr ec.pg ec.pb ec.pa }, [])

/-- A theme (`ITheme` from `common/services/Services`): all fields optional
color strings, plus the optional `extendedAnsi` list for palette slots 16+. -/
@[ext]
structure ITheme where
  foreground : Option String
  background : Option String
  cursor : Option String
  cursorAccent : Option String
  selection : Option String
  selectionForeground : Option String
  black : Option String
  red : Option String
  green : Option String
  yellow : Option String
  blue : Option String
  magenta : Option String
  cyan : Option String
  white : Option String
  brightBlack : Option String
  brightRed : Option String
  brightGreen : Option String
  brightYellow : Option String
  brightBlue : Option String
  brightMagenta : Option String
  brightCyan : Option String
  brightWhite : Option String
  extendedAnsi : Option (List String)
deriving DecidableEq, Repr

/-- The theme with every field absent (`setTheme({})`). -/
def emptyTheme : ITheme :=
  ⟨none, none, none, none, none, none, none, none, none, none, none, none,
   none, none, none, none, none, none, none, none, none, none, none⟩

/-- Modelled from the spec: one contrast-cache entry — a pair of colors (their
packed RGBA values) mapped to a cached contrast computation.  Only the
`clear`/`set` surface of the collaborator matters here. -/
abbrev CacheEntry : Type := (Nat × Nat) × Nat

/-- The live color set (`IColorSet`): the JavaScript `ansi` array is a list of
possibly-`undefined` slots (`Option IColor`), since the runtime can extend it
past index 255 and store holes there. -/
@[ext]
structure ColorSet where
  foreground : IColor
  background : IColor
  cursor : IColor
  cursorAccent : IColor
  selectionTransparent : IColor
  selectionOpaqueColor : IColor
  selectionForeground : Option IColor
  ansi : List (Option IColor)
deriving DecidableEq, Repr

/-- The restore snapshot (`IRestoreColorSet`): foreground, background, cursor
and a copy of the ANSI array. -/
@[ext]
structure RestoreColorSet where
  foreground : IColor
  background : IColor
  cursor : IColor
  ansi : List (Option IColor)
deriving DecidableEq, Repr

/-- The Color Manager state: the live color set, the private restore
snapshot, the shared contrast cache and the `allowTransparency` flag. -/
@[ext]
structure ColorManager where
  colors : ColorSet
  restoreColors : RestoreColorSet
  contrastCache : List CacheEntry
  allowTransparency : Bool
deriving DecidableEq, Repr

/-- JavaScript array write `l[i] = x`: in range it replaces the slot;
past the end it pads the array with holes (`none`) up to `i` and appends. -/
def ansiWrite (l : List (Option IColor)) (i : Nat) (x : Option IColor) :
    List (Option IColor) :=
  if i < l.length then l.set i x
  else l ++ List.replicate (i - l.length) none ++ [x]

/-- JavaScript array read `l[i]`: the slot's value, or `undefined` (`none`)
for a hole or an out-of-range index. -/
def readA (l : List (Option IColor)) (i : Nat) : Option IColor :=
  (l.get? i).getD none

/-- A run of JavaScript array writes `l[a] = f a, …, l[a+n-1] = f (a+n-1)`
in increasing index order. -/
def rangeWrite (a n : Nat) (f : Nat → Option IColor) (l : List (Option IColor)) :
    List (Option IColor) :=
  (List.range' a n).foldl (fun acc i => ansiWrite acc i (f i)) l

/-- The value written by `setTheme` into standard ANSI slot `i < 16`: the
slot's theme field parsed against `DEFAULT_ANSI_COLORS[i]` with the
instance's `allowTransparency`.  The source writes these sixteen slots one by
one in increasing order. -/
def standardAnsiValue (e : Engine) (t : ITheme) (aT : Bool) : Nat → Option IColor
  | 0 => (parseColorOpt e t.black (DEFAULT_ANSI_COLORS.get? 0) aT).1
  | 1 => (parseColorOpt e t.red (DEFAULT_ANSI_COLORS.get? 1) aT).1
  | 2 => (parseColorOpt e t.green (DEFAULT_ANSI_COLORS.get? 2) aT).1
  | 3 => (parseColorOpt e t.yellow (DEFAULT_ANSI_COLORS.get? 3) aT).1
  | 4 => (parseColorOpt e t.blue (DEFAULT_ANSI_COLORS.get? 4) aT).1
  | 5 => (parseColorOpt e t.magenta (DEFAULT_ANSI_COLORS.get? 5) aT).1
  | 6 => (parseColorOpt e t.cyan (DEFAULT_ANSI_COLORS.get? 6) aT).1
  | 7 => (parseColorOpt e t.white (DEFAULT_ANSI_COLORS.get? 7) aT).1
  | 8 => (parseColorOpt e t.brightBlack (DEFAULT_ANSI_COLORS.get? 8) aT).1
  | 9 => (parseColorOpt e t.brightRed (DEFAULT_ANSI_COLORS.get? 9) aT).1
  | 10 => (parseColorOpt e t.brightGreen (DEFAULT_ANSI_COLORS.get? 10) aT).1
  | 11 => (parseColorOpt e t.brightYellow (DEFAULT_ANSI_COLORS.get? 11) aT).1
  | 12 => (parseColorOpt e t.brightBlue (DEFAULT_ANSI_COLORS.get? 12) aT).1
  | 13 => (parseColorOpt e t.brightMagenta (DEFAULT_ANSI_COLORS.get? 13) aT).1
  | 14 => (parseColorOpt e t.brightCyan (DEFAULT_ANSI_COLORS.get? 14) aT).1
  | _ => (parseColorOpt e t.brightWhite (DEFAULT_ANSI_COLORS.get? 15) aT).1

/-- The value written by the `extendedAnsi` loop of `setTheme` into slot
`i ≥ 16`: `extendedAnsi[i - 16]` parsed against `DEFAULT_ANSI_COLORS[i]`
(which is `undefined` for `i ≥ 256`). -/
def extendedAnsiValue (e : Engine) (ext : List String) (aT : Bool) (i : Nat) :
    Option IColor :=
  (parseColorOpt e (ext.get? (i - 16)) (DEFAULT_ANSI_COLORS.get? i) aT).1

/-- The ANSI-array part of `setTheme`: write slots 0–15 from the sixteen
standard theme fields, then — when `extendedAnsi` is present — write slots
`16` through `Math.max(extendedAnsi.length + 16, 256) - 1`. -/
def themeAnsi (e : Engine) (t : ITheme) (aT : Bool) (l : List (Option IColor)) :
    List (Option IColor) :=
  let l16 := rangeWrite 0 16 (standardAnsiValue e t aT) l
  match t.extendedAnsi with
  | none => l16
  | some ext =>
    let colorCount := max (ext.length + 16) 256
    rangeWrite 16 (colorCount - 16) (extendedAnsiValue e ext aT) l16

/-- `ColorManager._updateRestoreColors`: snapshot foreground, background,
cursor and a copy (`slice()`) of the ANSI array. -/
def updateRestoreColors (m : ColorManager) : ColorManager :=
  { m with restoreColors :=
    { foreground := m.colors.foreground
      background := m.colors.background
      cursor := m.colors.cursor
      ansi := m.colors.ansi } }

/-- `ColorManager.setTheme`, transcribed in source order: resolve the
structural fields (cursor, cursor accent and selection with transparency
force-allowed), compute `selectionOpaque` by blending the new background with
the not-yet-downweighted transparent selection, resolve the optional
`selectionForeground` against the `nullColor` sentinel (the JS truthiness
test makes an empty string behave like an absent one), force an opaque
selection down to 0.3 opacity, apply the ANSI writes, clear the contrast
cache, and refresh the restore snapshot. -/
def setTheme (e : Engine) (t : ITheme) (m : ColorManager) : ColorManager :=
  let aT := m.allowTransparency
  let foreground := (parseColor e t.foreground DEFAULT_FOREGROUND aT).1
  let background := (parseColor e t.background DEFAULT_BACKGROUND aT).1
  let cursor := (parseColor e t.cursor DEFAULT_CURSOR true).1
  let cursorAccent := (parseColor e t.cursorAccent DEFAULT_CURSOR_ACCENT true).1
  let selectionTransparent0 := (parseColor e t.selection DEFAULT_SELECTION true).1
  let selectionOpaqueColor := color.blend background selectionTransparent0
  let selectionForeground0 : Option IColor :=
    match t.selectionForeground with
    | none => none
    | some s => if s = "" then none else some (parseColor e (some s) nullColor aT).1
  let selectionForeground :=
    if selectionForeground0 = some nullColor then none else selectionForeground0
  let selectionTransparent :=
    if color.isOpaqueColor selectionTransparent0 then
      color.opacity selectionTransparent0 (3 / 10)
    else selectionTransparent0
  let ansi := themeAnsi e t aT m.colors.ansi
  updateRestoreColors
    { m with
      colors :=
        { foreground := foreground
          background := background
          cursor := cursor
          cursorAccent := cursorAccent
          selectionTransparent := selectionTransparent
          selectionOpaqueColor := selectionOpaqueColor
          selectionForeground := selectionForeground
          ansi := ansi }
      contrastCache := [] }

/-- Modelled from the spec: the reserved sentinel slot for the foreground
(`ColorIndex.FOREGROUND` in `common/Types`, outside the slice); the sentinels
sit just past the 0–255 palette range. -/
def ColorIndex.FOREGROUND : Nat := 256

/-- Modelled from the spec: the reserved sentinel slot for the background. -/
def ColorIndex.BACKGROUND : Nat := 257

/-- Modelled from the spec: the reserved sentinel slot for the cursor. -/
def ColorIndex.CURSOR : Nat := 258

/-- `ColorManager.restoreColor`: with no slot, restore every snapshot ANSI
entry (`for i < snapshot.ansi.length`); with a sentinel slot restore the
matching structural field; otherwise treat the slot as an ANSI index. -/
def restoreColor (m : ColorManager) (slot : Option Nat) : ColorManager :=
  match slot with
  | none =>
    { m with colors :=
      { m.colors with
        ansi := rangeWrite 0 m.restoreColors.ansi.length
          (fun i => readA m.restoreColors.ansi i) m.colors.ansi } }
  | some s =>
    if s = ColorIndex.FOREGROUND then
      { m with colors := { m.colors with foreground := m.restoreColors.foreground } }
    else if s = ColorIndex.BACKGROUND then
      { m with colors := { m.colors with background := m.restoreColors.background } }
    else if s = ColorIndex.CURSOR then
      { m with colors := { m.colors with cursor := m.restoreColors.cursor } }
    else
      { m with colors :=
        { m.colors with ansi := ansiWrite m.colors.ansi s (readA m.restoreColors.ansi s) } }

/-- `ColorManager.onOptionsChange`: `minimumContrastRatio` clears the
contrast cache, `allowTransparency` stores the new flag, anything else is a
no-op.  (The source's `value: any` is narrowed to the `Bool` the
`allowTransparency` branch consumes; the other branches ignore it.) -/
def onOptionsChange (m : ColorManager) (key : String) (value : Bool) : ColorManager :=
  if key = "minimumContrastRatio" then { m with contrastCache := [] }
  else if key = "allowTransparency" then { m with allowTransparency := value }
  else m

/-- The `ColorManager` constructor: all color-set fields at built-in
defaults, `selectionOpaque` blended from the default background and
selection, a fresh (empty) contrast cache, and an initial restore snapshot. -/
def initManager (allowTransparency : Bool) : ColorManager :=
  updateRestoreColors
    { colors :=
        { foreground := DEFAULT_FOREGROUND
          background := DEFAULT_BACKGROUND
          cursor := DEFAULT_CURSOR
          cursorAccent := DEFAULT_CURSOR_ACCENT
          selectionTransparent := DEFAULT_SELECTION
          selectionOpaqueColor := color.blend DEFAULT_BACKGROUND DEFAULT_SELECTION
          selectionForeground := none
          ansi := DEFAULT_ANSI_COLORS.map some }
      restoreColors :=
        { foreground := DEFAULT_FOREGROUND
          background := DEFAULT_BACKGROUND
          cursor := DEFAULT_CURSOR
          ansi := [] }
      contrastCache := []
      allowTransparency := allowTransparency }

/-- One externally observable operation on a live Color Manager: the three
public methods, plus an external collaborator (the renderer) storing an entry
in the shared contrast cache. -/
inductive Op where
  | theme (t : ITheme)
  | restore (slot : Option Nat)
  | options (key : String) (value : Bool)
  | cacheAdd (entry : CacheEntry)
deriving DecidableEq, Repr

/-- Apply one operation to a Color Manager state. -/
def applyOp (e : Engine) (m : ColorManager) : Op → ColorManager
  | Op.theme t => setTheme e t m
  | Op.restore slot => restoreColor m slot
  | Op.options key value => onOptionsChange m key value
  | Op.cacheAdd entry => { m with contrastCache := entry :: m.contrastCache }

/-- Apply a sequence of operations, left to right. -/
def applyOps (e : Engine) (m : ColorManager) : List Op → ColorManager
  | [] => m
  | op :: ops => applyOps e (applyOp e m op) ops

/-- A state is reachable when some operation sequence produces it from a
freshly constructed manager. -/
def Reachable (e : Engine) (m : ColorManager) : Prop :=
  ∃ aT ops, applyOps e (initManager aT) ops = m

/-- An operation that is not a `setTheme` call. -/
def NonThemeOp : Op → Prop
  | Op.theme _ => False
  | _ => True

/-- An operation within the documented caller contract: `extendedAnsi` fits
in the 240 extended palette slots, and a restore slot is an ANSI index or a
reserved sentinel (at most 258). -/
def GoodOp : Op → Prop
  | Op.theme t => ∀ l, t.extendedAnsi = some l → l.length ≤ 240
  | Op.restore slot => ∀ n, slot = some n → n ≤ 258
  | _ => True

/-- An engine that rejects every string (any conformant host may behave this
way on nonsense input; used to exercise engine-independent behavior). -/
def nullEngine : Engine := fun _ => none

/-- A small concrete engine for witnesses: resolves `#ffffff` and `#ff0000`
to fully opaque colors and `rgba(0,0,255,0.5)` to a half-transparent blue,
rejecting everything else. -/
def sampleEngine : Engine := fun s =>
  if s = "#ffffff" then
    some { pr := 255, pg := 255, pb := 255, pa := 255
           serR := 255, serG := 255, serB := 255, serA := 1
           serializedHex := "#ffffff" }
  else if s = "#ff0000" then
    some { pr := 255, pg := 0, pb := 0, pa := 255
           serR := 255, serG := 0, serB := 0, serA := 1
           serializedHex := "#ff0000" }
  else if s = "rgba(0,0,255,0.5)" then
    some { pr := 0, pg := 0, pb := 255, pa := 128
           serR := 0, serG := 0, serB := 255, serA := 1 / 2
           serializedHex := "" }
  else none

/-- A theme setting only `extendedAnsi` with a single entry. -/
def themeOneExtended : ITheme :=
  { emptyTheme with extendedAnsi := some ["#ff0000"] }

/-- A theme whose `extendedAnsi` list has 241 entries — one more than the
240 extended palette slots. -/
def themeLongExtended : ITheme :=
  { emptyTheme with extendedAnsi := some (List.replicate 241 "#ff0000") }

/-- A theme setting only the selection color, to a fully opaque white. -/
def themeSelectionWhite : ITheme :=
  { emptyTheme with selection := some "#ffffff" }

/-- A reachable state with a non-empty contrast cache: a freshly constructed
manager after the rendering collaborator stored one contrast entry. -/
def cachePopulatedState : ColorManager :=
  applyOps nullEngine (initManager true) [Op.cacheAdd ((0, 0), 0)]

/-- The palette entry at an index, as a JavaScript read of the frozen
`DEFAULT_ANSI_COLORS` array (with an arbitrary placeholder out of range). -/
def ansiAt (i : Nat) : IColor :=
  (DEFAULT_ANSI_COLORS.get? i).getD nullColor

/-- Equality of the seven structural (non-ANSI) fields of two color sets. -/
def structuralEq (x y : ColorSet) : Prop :=
  x.foreground = y.foreground ∧ x.background = y.background
  ∧ x.cursor = y.cursor ∧ x.cursorAccent = y.cursorAccent
  ∧ x.selectionTransparent = y.selectionTransparent
  ∧ x.selectionOpaqueColor = y.selectionOpaqueColor
  ∧ x.selectionForeground = y.selectionForeground

theorem ansiWrite_length (l : List (Option IColor)) (i : Nat) (x : Option IColor) :
    (ansiWrite l i x).length = max l.length (i + 1) := by
  unfold ansiWrite
  split
  · rw [List.length_set]; omega
  · rw [List.length_append, List.length_append, List.length_replicate]
    simp only [List.length_singleton]
    omega

theorem ansiWrite_get? (l : List (Option IColor)) (i j : Nat) (x : Option IColor) :
    (ansiWrite l i x).get? j =
      if j = i then some x
      else if j < l.length then l.get? j
      else if j < i then some none else none := by
  unfold ansiWrite
  by_cases hi : i < l.length
  · rw [if_pos hi, List.get?_set]
    by_cases hji : j = i
    · subst hji
      simp [List.getElem?_eq_getElem hi]
    · rw [if_neg (fun h => hji h.symm), if_neg hji]
      by_cases hjl : j < l.length
      · rw [if_pos hjl]
      · rw [if_neg hjl, if_neg (by omega), List.get?_len_le (by omega)]
  · rw [if_neg hi, List.append_assoc]
    by_cases hjl : j < l.length
    · rw [List.get?_append hjl, if_neg (by omega), if_pos hjl]
    · rw [List.get?_append_right (by omega)]
      by_cases hji : j = i
      · subst hji
        rw [List.get?_append_right (by rw [List.length_replicate]),
          List.length_replicate, if_pos rfl, Nat.sub_self]
        rfl
      · by_cases hjilt : j < i
        · rw [List.get?_append
            (by rw [List.length_replicate]; omega)]
          simp only [List.get?_eq_getElem?, List.getElem?_replicate]
          rw [if_pos (by omega), if_neg hji, if_neg hjl, if_pos hjilt]
        · rw [List.get?_append_right (by rw [List.length_replicate]; omega),
            List.length_replicate, if_neg hji, if_neg hjl, if_neg hjilt,
            List.get?_len_le (by simp only [List.length_singleton]; omega)]

theorem rangeWrite_zero (a : Nat) (f : Nat → Option IColor) (l : List (Option IColor)) :
    rangeWrite a 0 f l = l := rfl

theorem rangeWrite_succ (a n : Nat) (f : Nat → Option IColor) (l : List (Option IColor)) :
    rangeWrite a (n + 1) f l = rangeWrite (a + 1) n f (ansiWrite l a (f a)) := by
  unfold rangeWrite
  rw [List.range'_succ]
  rfl

theorem rangeWrite_length (a n : Nat) (f : Nat → Option IColor)
    (l : List (Option IColor)) (h : a ≤ l.length) :
    (rangeWrite a n f l).length = max l.length (a + n) := by
  induction n generalizing a l with
  | zero => rw [rangeWrite_zero]; omega
  | succ n ih =>
    rw [rangeWrite_succ, ih (a + 1) _ (by rw [ansiWrite_length]; omega),
      ansiWrite_length]
    omega

theorem rangeWrite_get? (a n : Nat) (f : Nat → Option IColor)
    (l : List (Option IColor)) (h : a ≤ l.length) (j : Nat) :
    (rangeWrite a n f l).get? j =
      if a ≤ j ∧ j < a + n then some (f j) else l.get? j := by
  induction n generalizing a l with
  | zero =>
    rw [rangeWrite_zero, if_neg (by omega)]
  | succ n ih =>
    rw [rangeWrite_succ, ih (a + 1) _ (by rw [ansiWrite_length]; omega),
      ansiWrite_get?]
    by_cases h1 : a + 1 ≤ j ∧ j < a + 1 + n
    · rw [if_pos h1, if_pos (by omega)]
    · rw [if_neg h1]
      by_cases hja : j = a
      · subst hja
        rw [if_pos rfl, if_pos (by omega)]
      · rw [if_neg hja]
        by_cases hjl : j < l.length
        · rw [if_pos hjl, if_neg (by omega)]
        · rw [if_neg hjl, if_neg (by omega), if_neg (by omega),
            List.get?_len_le (by omega)]

theorem parseColorOpt_isSome (e : Engine) (cssIn : Option String) (f : IColor)
    (aT : Bool) : ((parseColorOpt e cssIn (some f) aT).1).isSome = true := by
  cases cssIn with
  | none => rfl
  | some s =>
    cases he : e s with
    | none => simp [parseColorOpt, he]
    | some ec =>
      by_cases h1 : ec.pa = 255
      · simp [parseColorOpt, he, h1]
      · by_cases h2 : aT <;> simp [parseColorOpt, he, h1, h2]

theorem default_ansi_length : DEFAULT_ANSI_COLORS.length = 256 := by
  rw [DEFAULT_ANSI_COLORS, List.length_append, List.length_append,
    List.length_map, List.length_map, List.length_range, List.length_range]
  rfl

theorem default_ansi_isSome (i : Nat) (h : i < 256) :
    (DEFAULT_ANSI_COLORS.get? i).isSome = true := by
  rw [List.get?_eq_get (by rw [default_ansi_length]; exact h)]
  rfl

theorem themeAnsi_get? (e : Engine) (t : ITheme) (aT : Bool)
    (l : List (Option IColor)) (j : Nat) :
    (themeAnsi e t aT l).get? j =
      match t.extendedAnsi with
      | none =>
        if j < 16 then some (standardAnsiValue e t aT j) else l.get? j
      | some ext =>
        if j < 16 then some (standardAnsiValue e t aT j)
        else if j < max (ext.length + 16) 256 then
          some (extendedAnsiValue e ext aT j)
        else l.get? j := by
  unfold themeAnsi
  have h16 : (rangeWrite 0 16 (standardAnsiValue e t aT) l).get? j =
      if j < 16 then some (standardAnsiValue e t aT j) else l.get? j := by
    rw [rangeWrite_get? 0 16 _ _ (Nat.zero_le _) j]
    by_cases hj : j < 16
    · rw [if_pos ⟨Nat.zero_le _, by omega⟩, if_pos hj]
    · rw [if_neg (by omega), if_neg hj]
  cases hext : t.extendedAnsi with
  | none => exact h16
  | some ext =>
    have hlen : 16 ≤ (rangeWrite 0 16 (standardAnsiValue e t aT) l).length := by
      rw [rangeWrite_length 0 16 _ _ (Nat.zero_le _)]; omega
    rw [rangeWrite_get? 16 _ _ _ hlen j]
    simp only
    by_cases hj : j < 16
    · rw [if_neg (by omega), h16, if_pos hj, if_pos hj]
    · rw [if_neg hj]
      by_cases hj2 : j < max (ext.length + 16) 256
      · rw [if_pos (by omega), if_pos hj2]
      · rw [if_neg (by omega), h16, if_neg hj, if_neg hj2]

theorem themeAnsi_length (e : Engine) (t : ITheme) (aT : Bool)
    (l : List (Option IColor)) :
    (themeAnsi e t aT l).length =
      match t.extendedAnsi with
      | none => max l.length 16
      | some ext => max (max l.length 16) (max (ext.length + 16) 256) := by
  unfold themeAnsi
  have h16 : (rangeWrite 0 16 (standardAnsiValue e t aT) l).length = max l.length 16 :=
    rangeWrite_length 0 16 _ _ (Nat.zero_le _)
  cases hext : t.extendedAnsi with
  | none => exact h16
  | some ext =>
    simp only
    rw [rangeWrite_length 16 _ _ _ (by omega), h16]
    omega

theorem readA_of_le (l : List (Option IColor)) (i : Nat) (h : l.length ≤ i) :
    readA l i = none := by
  unfold readA
  rw [List.get?_len_le h]
  rfl

theorem ansiWrite_readA (l : List (Option IColor)) (i j : Nat) (x : Option IColor) :
    readA (ansiWrite l i x) j =
      if j = i then x else if j < l.length then readA l j else none := by
  unfold readA
  rw [ansiWrite_get?]
  by_cases h1 : j = i
  · rw [if_pos h1, if_pos h1]; rfl
  · rw [if_neg h1, if_neg h1]
    by_cases h2 : j < l.length
    · rw [if_pos h2, if_pos h2]
    · rw [if_neg h2, if_neg h2]
      by_cases h3 : j < i
      · rw [if_pos h3]; rfl
      · rw [if_neg h3]; rfl

theorem rangeWrite_readA (a n : Nat) (f : Nat → Option IColor)
    (l : List (Option IColor)) (h : a ≤ l.length) (j : Nat) :
    readA (rangeWrite a n f l) j =
      if a ≤ j ∧ j < a + n then f j else readA l j := by
  unfold readA
  rw [rangeWrite_get? a n f l h j]
  by_cases h1 : a ≤ j ∧ j < a + n
  · rw [if_pos h1, if_pos h1]; rfl
  · rw [if_neg h1, if_neg h1]

theorem themeAnsi_readA (e : Engine) (t : ITheme) (aT : Bool)
    (l : List (Option IColor)) (j : Nat) :
    readA (themeAnsi e t aT l) j =
      match t.extendedAnsi with
      | none =>
        if j < 16 then standardAnsiValue e t aT j else readA l j
      | some ext =>
        if j < 16 then standardAnsiValue e t aT j
        else if j < max (ext.length + 16) 256 then extendedAnsiValue e ext aT j
        else readA l j := by
  unfold readA
  rw [themeAnsi_get?]
  cases t.extendedAnsi with
  | none =>
    by_cases h1 : j < 16
    · rw [if_pos h1]; simp only [if_pos h1]; rfl
    · rw [if_neg h1]; simp only [if_neg h1]
  | some ext =>
    by_cases h1 : j < 16
    · rw [if_pos h1]; simp only [if_pos h1]; rfl
    · rw [if_neg h1]
      by_cases h2 : j < max (ext.length + 16) 256
      · simp only [if_neg h1, if_pos h2]; rfl
      · simp only [if_neg h1, if_neg h2]

theorem setTheme_contrastCache (e : Engine) (t : ITheme) (m : ColorManager) :
    (setTheme e t m).contrastCache = [] := rfl

theorem setTheme_allowTransparency (e : Engine) (t : ITheme) (m : ColorManager) :
    (setTheme e t m).allowTransparency = m.allowTransparency := rfl

theorem setTheme_colors_ansi (e : Engine) (t : ITheme) (m : ColorManager) :
    (setTheme e t m).colors.ansi = themeAnsi e t m.allowTransparency m.colors.ansi := rfl

theorem setTheme_restore_ansi (e : Engine) (t : ITheme) (m : ColorManager) :
    (setTheme e t m).restoreColors.ansi = (setTheme e t m).colors.ansi := rfl

theorem initManager_restore_ansi (aT : Bool) :
    (initManager aT).restoreColors.ansi = (initManager aT).colors.ansi := rfl

theorem restoreColor_restoreColors (m : ColorManager) (slot : Option Nat) :
    (restoreColor m slot).restoreColors = m.restoreColors := by
  cases slot with
  | none => rfl
  | some s =>
    simp only [restoreColor]
    repeat' split
    all_goals rfl

theorem restoreColor_contrastCache (m : ColorManager) (slot : Option Nat) :
    (restoreColor m slot).contrastCache = m.contrastCache := by
  cases slot with
  | none => rfl
  | some s =>
    simp only [restoreColor]
    repeat' split
    all_goals rfl

theorem onOptionsChange_colors (m : ColorManager) (key : String) (value : Bool) :
    (onOptionsChange m key value).colors = m.colors := by
  unfold onOptionsChange
  repeat' split
  all_goals rfl

theorem onOptionsChange_restoreColors (m : ColorManager) (key : String) (value : Bool) :
    (onOptionsChange m key value).restoreColors = m.restoreColors := by
  unfold onOptionsChange
  repeat' split
  all_goals rfl

/-- Entries past the end of the restore snapshot hold no color in the live
ANSI array (writes out there only ever store `undefined`). -/
def BeyondNone (m : ColorManager) : Prop :=
  ∀ i, m.restoreColors.ansi.length ≤ i → readA m.colors.ansi i = none

theorem applyOp_nonTheme_restoreColors (e : Engine) (m : ColorManager) (op : Op)
    (h : NonThemeOp op) : (applyOp e m op).restoreColors = m.restoreColors := by
  cases op with
  | theme t => exact absurd h id
  | restore slot => exact restoreColor_restoreColors m slot
  | options key value => exact onOptionsChange_restoreColors m key value
  | cacheAdd entry => rfl

theorem applyOps_nonTheme_restoreColors (e : Engine) (ops : List Op) :
    ∀ m : ColorManager, (∀ op ∈ ops, NonThemeOp op) →
      (applyOps e m ops).restoreColors = m.restoreColors := by
  induction ops with
  | nil => intro m _; rfl
  | cons op ops ih =>
    intro m h
    have h1 : NonThemeOp op := h op (List.mem_cons_self op ops)
    have h2 : ∀ o ∈ ops, NonThemeOp o := fun o ho => h o (List.mem_cons_of_mem op ho)
    show (applyOps e (applyOp e m op) ops).restoreColors = m.restoreColors
    rw [ih (applyOp e m op) h2, applyOp_nonTheme_restoreColors e m op h1]

theorem restoreColor_some_ansi (m : ColorManager) (s : Nat)
    (h1 : s ≠ ColorIndex.FOREGROUND) (h2 : s ≠ ColorIndex.BACKGROUND)
    (h3 : s ≠ ColorIndex.CURSOR) :
    (restoreColor m (some s)).colors.ansi =
      ansiWrite m.colors.ansi s (readA m.restoreColors.ansi s) := by
  simp only [restoreColor]
  rw [if_neg h1, if_neg h2, if_neg h3]

theorem restoreColor_some_structural_ansi (m : ColorManager) (s : Nat)
    (h : s = ColorIndex.FOREGROUND ∨ s = ColorIndex.BACKGROUND ∨ s = ColorIndex.CURSOR) :
    (restoreColor m (some s)).colors.ansi = m.colors.ansi := by
  simp only [restoreColor]
  rcases h with h1 | h2 | h3
  · rw [if_pos h1]
  · rw [if_neg (by rw [h2]; decide), if_pos h2]
  · rw [if_neg (by rw [h3]; decide), if_neg (by rw [h3]; decide), if_pos h3]

theorem restoreColor_none_ansi (m : ColorManager) :
    (restoreColor m none).colors.ansi =
      rangeWrite 0 m.restoreColors.ansi.length
        (fun i => readA m.restoreColors.ansi i) m.colors.ansi := rfl

theorem applyOp_nonTheme_beyond (e : Engine) (m : ColorManager) (op : Op)
    (h : NonThemeOp op) (hb : BeyondNone m) : BeyondNone (applyOp e m op) := by
  intro i hi
  rw [applyOp_nonTheme_restoreColors e m op h] at hi
  cases op with
  | theme t => exact absurd h id
  | restore slot =>
    show readA (restoreColor m slot).colors.ansi i = none
    cases slot with
    | none =>
      rw [restoreColor_none_ansi,
        rangeWrite_readA _ _ _ _ (Nat.zero_le _), if_neg (by omega)]
      exact hb i hi
    | some s =>
      by_cases hs : s = ColorIndex.FOREGROUND ∨ s = ColorIndex.BACKGROUND ∨
          s = ColorIndex.CURSOR
      · rw [restoreColor_some_structural_ansi m s hs]
        exact hb i hi
      · push_neg at hs
        rw [restoreColor_some_ansi m s hs.1 hs.2.1 hs.2.2, ansiWrite_readA]
        by_cases his : i = s
        · rw [if_pos his]
          exact readA_of_le _ _ (by omega)
        · rw [if_neg his]
          by_cases hil : i < m.colors.ansi.length
          · rw [if_pos hil]; exact hb i hi
          · rw [if_neg hil]
  | options key value =>
    show readA (onOptionsChange m key value).colors.ansi i = none
    rw [onOptionsChange_colors]
    exact hb i hi
  | cacheAdd entry => exact hb i hi

theorem applyOps_nonTheme_beyond (e : Engine) (ops : List Op) :
    ∀ m : ColorManager, (∀ op ∈ ops, NonThemeOp op) → BeyondNone m →
      BeyondNone (applyOps e m ops) := by
  induction ops with
  | nil => intro m _ hb; exact hb
  | cons op ops ih =>
    intro m h hb
    exact ih (applyOp e m op)
      (fun o ho => h o (List.mem_cons_of_mem op ho))
      (applyOp_nonTheme_beyond e m op (h op (List.mem_cons_self op ops)) hb)

/-- Core of the full-restore analysis: from any state whose restore snapshot
ANSI array equals its live ANSI array (as `setTheme` and construction leave
it), any run of non-theme operations followed by `restoreColor()` puts every
readable ANSI slot back to its pre-run value. -/
theorem restore_after_ops (e : Engine) (m1 : ColorManager)
    (hf : m1.restoreColors.ansi = m1.colors.ansi) (ops : List Op)
    (h : ∀ op ∈ ops, NonThemeOp op) (i : Nat) :
    readA (restoreColor (applyOps e m1 ops) none).colors.ansi i =
      readA m1.colors.ansi i := by
  have hrest : (applyOps e m1 ops).restoreColors = m1.restoreColors :=
    applyOps_nonTheme_restoreColors e ops m1 h
  have hb1 : BeyondNone m1 := by
    intro j hj
    rw [hf] at hj
    exact readA_of_le _ _ hj
  have hb : BeyondNone (applyOps e m1 ops) := applyOps_nonTheme_beyond e ops m1 h hb1
  rw [restoreColor_none_ansi, rangeWrite_readA _ _ _ _ (Nat.zero_le _) i, hrest, hf]
  by_cases hi : i < m1.colors.ansi.length
  · rw [if_pos ⟨Nat.zero_le _, by omega⟩]
  · rw [if_neg (by omega)]
    have h2 : readA m1.colors.ansi i = none := readA_of_le _ _ (by omega)
    have h3 : readA (applyOps e m1 ops).colors.ansi i = none :=
      hb i (by rw [hrest, hf]; omega)
    rw [h2, h3]

theorem parseColorOpt_isSome2 (e : Engine) (cssIn : Option String)
    (fb : Option IColor) (aT : Bool) (hfb : fb.isSome = true) :
    ((parseColorOpt e cssIn fb aT).1).isSome = true := by
  obtain ⟨f, rfl⟩ := Option.isSome_iff_exists.mp hfb
  exact parseColorOpt_isSome e cssIn f aT

theorem standardAnsiValue_isSome (e : Engine) (t : ITheme) (aT : Bool) (j : Nat) :
    (standardAnsiValue e t aT j).isSome = true := by
  unfold standardAnsiValue
  split
  all_goals exact parseColorOpt_isSome2 _ _ _ _ (default_ansi_isSome _ (by omega))

/-- The palette-size invariant: live and snapshot ANSI arrays have exactly
256 entries, all of them defined colors. -/
def SizeInv (m : ColorManager) : Prop :=
  m.colors.ansi.length = 256 ∧ m.restoreColors.ansi.length = 256
  ∧ (∀ i, i < 256 → (readA m.colors.ansi i).isSome = true)
  ∧ (∀ i, i < 256 → (readA m.restoreColors.ansi i).isSome = true)

theorem SizeInv_init (aT : Bool) : SizeInv (initManager aT) := by
  have hlen : (initManager aT).colors.ansi.length = 256 := by
    show (DEFAULT_ANSI_COLORS.map some).length = 256
    rw [List.length_map, default_ansi_length]
  have hsome : ∀ i, i < 256 → (readA (initManager aT).colors.ansi i).isSome = true := by
    intro i hi
    show (readA (DEFAULT_ANSI_COLORS.map some) i).isSome = true
    unfold readA
    rw [List.get?_map]
    obtain ⟨c, hc⟩ := Option.isSome_iff_exists.mp (default_ansi_isSome i hi)
    rw [hc]
    rfl
  exact ⟨hlen, hlen, hsome, hsome⟩

theorem SizeInv_setTheme (e : Engine) (t : ITheme) (m : ColorManager)
    (hgood : ∀ l, t.extendedAnsi = some l → l.length ≤ 240) (h : SizeInv m) :
    SizeInv (setTheme e t m) := by
  obtain ⟨hl, _, hs, _⟩ := h
  have hlen : (setTheme e t m).colors.ansi.length = 256 := by
    rw [setTheme_colors_ansi, themeAnsi_length]
    cases hext : t.extendedAnsi with
    | none => simp only; omega
    | some ext =>
      have := hgood ext hext
      simp only
      omega
  have hsome : ∀ i, i < 256 → (readA (setTheme e t m).colors.ansi i).isSome = true := by
    intro i hi
    rw [setTheme_colors_ansi, themeAnsi_readA]
    cases hext : t.extendedAnsi with
    | none =>
      simp only
      by_cases h16 : i < 16
      · rw [if_pos h16]; exact standardAnsiValue_isSome e t _ i
      · rw [if_neg h16]; exact hs i hi
    | some ext =>
      simp only
      by_cases h16 : i < 16
      · rw [if_pos h16]; exact standardAnsiValue_isSome e t _ i
      · rw [if_neg h16]
        by_cases hcc : i < max (ext.length + 16) 256
        · rw [if_pos hcc]
          unfold extendedAnsiValue
          exact parseColorOpt_isSome2 _ _ _ _ (default_ansi_isSome i hi)
        · rw [if_neg hcc]; exact hs i hi
  exact ⟨hlen, by rw [setTheme_restore_ansi]; exact hlen, hsome,
    by rw [setTheme_restore_ansi]; exact hsome⟩

theorem SizeInv_restore (m : ColorManager) (slot : Option Nat)
    (hgood : ∀ n, slot = some n → n ≤ 258) (h : SizeInv m) :
    SizeInv (restoreColor m slot) := by
  obtain ⟨hl, hrl, hs, hrs⟩ := h
  have hrest := restoreColor_restoreColors m slot
  cases slot with
  | none =>
    have hlen : (restoreColor m none).colors.ansi.length = 256 := by
      rw [restoreColor_none_ansi, rangeWrite_length _ _ _ _ (Nat.zero_le _)]
      omega
    have hsome : ∀ i, i < 256 → (readA (restoreColor m none).colors.ansi i).isSome = true := by
      intro i hi
      rw [restoreColor_none_ansi, rangeWrite_readA _ _ _ _ (Nat.zero_le _),
        if_pos ⟨Nat.zero_le _, by omega⟩]
      exact hrs i hi
    exact ⟨hlen, by rw [hrest]; exact hrl, hsome, by rw [hrest]; exact hrs⟩
  | some s =>
    by_cases hsent : s = ColorIndex.FOREGROUND ∨ s = ColorIndex.BACKGROUND ∨
        s = ColorIndex.CURSOR
    · have hansi := restoreColor_some_structural_ansi m s hsent
      exact ⟨by rw [hansi]; exact hl, by rw [hrest]; exact hrl,
        fun i hi => by rw [hansi]; exact hs i hi, by rw [hrest]; exact hrs⟩
    · push_neg at hsent
      have hs255 : s ≤ 255 := by
        have := hgood s rfl
        have e1 := hsent.1
        have e2 := hsent.2.1
        have e3 := hsent.2.2
        unfold ColorIndex.FOREGROUND at e1
        unfold ColorIndex.BACKGROUND at e2
        unfold ColorIndex.CURSOR at e3
        omega
      have hansi := restoreColor_some_ansi m s hsent.1 hsent.2.1 hsent.2.2
      have hlen : (restoreColor m (some s)).colors.ansi.length = 256 := by
        rw [hansi, ansiWrite_length]
        omega
      have hsome : ∀ i, i < 256 →
          (readA (restoreColor m (some s)).colors.ansi i).isSome = true := by
        intro i hi
        rw [hansi, ansiWrite_readA]
        by_cases his : i = s
        · rw [if_pos his]
          exact hrs s (by omega)
        · rw [if_neg his, if_pos (by omega)]
          exact hs i hi
      exact ⟨hlen, by rw [hrest]; exact hrl, hsome, by rw [hrest]; exact hrs⟩

theorem SizeInv_applyOp (e : Engine) (m : ColorManager) (op : Op)
    (hgood : GoodOp op) (h : SizeInv m) : SizeInv (applyOp e m op) := by
  cases op with
  | theme t => exact SizeInv_setTheme e t m hgood h
  | restore slot => exact SizeInv_restore m slot hgood h
  | options key value =>
    obtain ⟨hl, hrl, hs, hrs⟩ := h
    have hc := onOptionsChange_colors m key value
    have hr := onOptionsChange_restoreColors m key value
    exact ⟨by rw [show (applyOp e m (Op.options key value)).colors = m.colors from hc]; exact hl,
      by rw [show (applyOp e m (Op.options key value)).restoreColors = m.restoreColors from hr]; exact hrl,
      fun i hi => by rw [show (applyOp e m (Op.options key value)).colors = m.colors from hc]; exact hs i hi,
      fun i hi => by rw [show (applyOp e m (Op.options key value)).restoreColors = m.restoreColors from hr]; exact hrs i hi⟩
  | cacheAdd entry => exact h

theorem SizeInv_applyOps (e : Engine) (ops : List Op) :
    ∀ m : ColorManager, (∀ op ∈ ops, GoodOp op) → SizeInv m →
      SizeInv (applyOps e m ops) := by
  induction ops with
  | nil => intro m _ h; exact h
  | cons op ops ih =>
    intro m h hm
    exact ih (applyOp e m op)
      (fun o ho => h o (List.mem_cons_of_mem op ho))
      (SizeInv_applyOp e m op (h op (List.mem_cons_self op ops)) hm)

theorem parseColor_fullAlpha (e : Engine) (s : String) (fb : IColor) (aT : Bool)
    (ec : EngineColor) (he : e s = some ec) (hpa : ec.pa = 255) :
    parseColor e (some s) fb aT
      = ({ css := ec.serializedHex
           rgba := channels.toRgba ec.pr ec.pg ec.pb ec.pa }, []) := by
  simp [parseColor, he, hpa]

theorem parseColor_transparent (e : Engine) (s : String) (fb : IColor)
    (ec : EngineColor) (he : e s = some ec) (hpa : ec.pa ≠ 255) :
    parseColor e (some s) fb true
      = ({ rgba := channels.toRgba ec.serR ec.serG ec.serB (jsRound (ec.serA * 255)).toNat
           css := s }, []) := by
  simp [parseColor, he, hpa]

theorem toRgba_mod256 (r g b a : Nat) (ha : a < 256) :
    channels.toRgba r g b a % 256 = a := by
  unfold channels.toRgba
  omega

theorem jsRound_opacity : (jsRound ((3 : ℚ) / 10 * 255)).toNat = 77 := by
  unfold jsRound
  norm_num
  rfl

theorem jsRound_half : (jsRound ((1 : ℚ) / 2 * 255)).toNat = 128 := by
  unfold jsRound
  norm_num
  rfl

theorem opacity_alphaOf (c : IColor) :
    alphaOf (color.opacity c (3 / 10)) = 77 := by
  unfold color.opacity alphaOf
  simp only
  rw [jsRound_opacity]
  exact toRgba_mod256 _ _ _ 77 (by omega)

/-- C5: `parseColor` is total and falls back on every failure: an undefined
input returns the fallback unchanged with no diagnostic; a string the engine
rejects logs a diagnostic and returns the fallback unchanged; a valid but
not-fully-opaque input with `allowTransparency` false logs a diagnostic and
returns the fallback unchanged.  (`parseColor` is a total Lean function, so
it never raises and always returns a color.) -/
theorem claimC5 :
    (∀ (e : Engine) (fb : IColor) (aT : Bool),
      parseColor e none fb aT = (fb, []))
    ∧ (∀ (e : Engine) (s : String) (fb : IColor) (aT : Bool), e s = none →
      parseColor e (some s) fb aT = (fb, [warnInvalid s fb.css]))
    ∧ (∀ (e : Engine) (s : String) (fb : IColor) (ec : EngineColor),
      e s = some ec → ec.pa ≠ 255 →
      parseColor e (some s) fb false = (fb, [warnTransparent s fb.css])) := by
  refine ⟨fun e fb aT => rfl, fun e s fb aT he => ?_, fun e s fb ec he hpa => ?_⟩
  · simp [parseColor, he]
  · simp [parseColor, he, hpa]

theorem claimC5_witness :
    parseColor sampleEngine none DEFAULT_FOREGROUND true = (DEFAULT_FOREGROUND, [])
    ∧ sampleEngine "junk" = none
    ∧ parseColor sampleEngine (some "junk") DEFAULT_FOREGROUND true
        = (DEFAULT_FOREGROUND, [warnInvalid "junk" DEFAULT_FOREGROUND.css])
    ∧ parseColor sampleEngine (some "rgba(0,0,255,0.5)") DEFAULT_FOREGROUND false
        = (DEFAULT_FOREGROUND, [warnTransparent "rgba(0,0,255,0.5)" DEFAULT_FOREGROUND.css]) :=
  ⟨claimC5.1 sampleEngine DEFAULT_FOREGROUND true,
   rfl,
   claimC5.2.1 sampleEngine "junk" DEFAULT_FOREGROUND true rfl,
   claimC5.2.2 sampleEngine "rgba(0,0,255,0.5)" DEFAULT_FOREGROUND
     { pr := 0, pg := 0, pb := 255, pa := 128
       serR := 0, serG := 0, serB := 255, serA := 1 / 2
       serializedHex := "" } rfl (by decide)⟩

/-- C6: on an accepted, fully opaque input the returned color's CSS string is
the engine's canonical serialized form (never the raw input string), and its
packed RGBA is built from the rendered validation-surface pixel bytes with
alpha `0xFF`. -/
theorem claimC6 (e : Engine) (s : String) (fb : IColor) (aT : Bool)
    (ec : EngineColor) (he : e s = some ec) (hpa : ec.pa = 255) :
    parseColor e (some s) fb aT
      = ({ css := ec.serializedHex
           rgba := channels.toRgba ec.pr ec.pg ec.pb 255 }, []) := by
  rw [parseColor_fullAlpha e s fb aT ec he hpa, hpa]

theorem claimC6_witness :
    parseColor sampleEngine (some "#ffffff") DEFAULT_BACKGROUND false
      = ({ css := "#ffffff", rgba := 4294967295 }, []) := by
  rw [claimC6 sampleEngine "#ffffff" DEFAULT_BACKGROUND false
    { pr := 255, pg := 255, pb := 255, pa := 255
      serR := 255, serG := 255, serB := 255, serA := 1
      serializedHex := "#ffffff" } rfl rfl]
  rfl

/-- C7: on an accepted, not-fully-opaque input with transparency allowed, the
returned color keeps the original, un-normalized input string as its CSS
representation, and its RGBA is packed from the canonical serialized
components with the alpha reconstructed as `Math.round(a * 255)`. -/
theorem claimC7 (e : Engine) (s : String) (fb : IColor)
    (ec : EngineColor) (he : e s = some ec) (hpa : ec.pa ≠ 255) :
    parseColor e (some s) fb true
      = ({ rgba := channels.toRgba ec.serR ec.serG ec.serB (jsRound (ec.serA * 255)).toNat
           css := s }, []) :=
  parseColor_transparent e s fb ec he hpa

theorem claimC7_witness :
    parseColor sampleEngine (some "rgba(0,0,255,0.5)") DEFAULT_FOREGROUND true
      = ({ css := "rgba(0,0,255,0.5)", rgba := 65408 }, []) := by
  rw [claimC7 sampleEngine "rgba(0,0,255,0.5)" DEFAULT_FOREGROUND
    { pr := 0, pg := 0, pb := 255, pa := 128
      serR := 0, serG := 0, serB := 255, serA := 1 / 2
      serializedHex := "" } rfl (by decide)]
  rw [Prod.mk.injEq]
  refine ⟨?_, rfl⟩
  rw [IColor.mk.injEq]
  refine ⟨rfl, ?_⟩
  rw [jsRound_half]
  rfl

/-- C1, corrected: `setTheme` does clear the Contrast Cache eagerly (it is
empty when the operation completes), and so does
`onOptionsChange('minimumContrastRatio')` — but `restoreColor` never touches
the cache: it leaves the cache exactly as it was, so entries computed from
the pre-mutation colors survive a restore. -/
theorem claimC1 :
    (∀ (e : Engine) (t : ITheme) (m : ColorManager),
      (setTheme e t m).contrastCache = [])
    ∧ (∀ (m : ColorManager) (slot : Option Nat),
      (restoreColor m slot).contrastCache = m.contrastCache)
    ∧ (∀ (m : ColorManager) (value : Bool),
      (onOptionsChange m "minimumContrastRatio" value).contrastCache = []) :=
  ⟨fun e t m => setTheme_contrastCache e t m,
   fun m slot => restoreColor_contrastCache m slot,
   fun _ _ => rfl⟩

theorem claimC1_counter :
    Reachable nullEngine cachePopulatedState
    ∧ (restoreColor cachePopulatedState none).contrastCache ≠ [] := by
  constructor
  · exact ⟨true, [Op.cacheAdd ((0, 0), 0)], rfl⟩
  · rw [restoreColor_contrastCache]
    decide

/-- C4: when the theme's selection string resolves to a fully opaque color,
`setTheme` stores that resolved color downweighted to 0.3 opacity in
`selectionTransparent`: the stored value is `color.opacity` of the resolved
color at `3/10`, its alpha byte is `77 = Math.round(0.3 * 255)`, and it is
not fully opaque. -/
theorem claimC4 (e : Engine) (t : ITheme) (m : ColorManager) (s : String)
    (ec : EngineColor) (hsel : t.selection = some s) (he : e s = some ec)
    (hpa : ec.pa = 255) :
    (setTheme e t m).colors.selectionTransparent
      = color.opacity
          { css := ec.serializedHex, rgba := channels.toRgba ec.pr ec.pg ec.pb 255 }
          (3 / 10)
    ∧ alphaOf (setTheme e t m).colors.selectionTransparent = 77
    ∧ color.isOpaqueColor (setTheme e t m).colors.selectionTransparent = false := by
  have hst0 : (parseColor e t.selection DEFAULT_SELECTION true).1
      = { css := ec.serializedHex, rgba := channels.toRgba ec.pr ec.pg ec.pb 255 } := by
    rw [hsel, parseColor_fullAlpha e s DEFAULT_SELECTION true ec he hpa, hpa]
  have hfullA : color.isOpaqueColor
      { css := ec.serializedHex, rgba := channels.toRgba ec.pr ec.pg ec.pb 255 }
        = true := by
    unfold color.isOpaqueColor alphaOf
    simp only
    rw [toRgba_mod256 _ _ _ 255 (by omega)]
    simp
  have hsel2 : (setTheme e t m).colors.selectionTransparent
      = color.opacity
          { css := ec.serializedHex, rgba := channels.toRgba ec.pr ec.pg ec.pb 255 }
          (3 / 10) := by
    show (let st0 := (parseColor e t.selection DEFAULT_SELECTION true).1;
      if color.isOpaqueColor st0 then color.opacity st0 (3 / 10) else st0)
      = _
    rw [hst0]
    simp only [hfullA, if_pos]
  refine ⟨hsel2, ?_, ?_⟩
  · rw [hsel2]
    exact opacity_alphaOf _
  · rw [hsel2]
    unfold color.isOpaqueColor
    rw [opacity_alphaOf]
    simp

theorem claimC4_witness :
    themeSelectionWhite.selection = some "#ffffff"
    ∧ (setTheme sampleEngine themeSelectionWhite (initManager true)).colors.selectionTransparent
        = color.opacity { css := "#ffffff", rgba := 4294967295 } (3 / 10)
    ∧ alphaOf (setTheme sampleEngine themeSelectionWhite
        (initManager true)).colors.selectionTransparent = 77 := by
  have h := claimC4 sampleEngine themeSelectionWhite (initManager true) "#ffffff"
    { pr := 255, pg := 255, pb := 255, pa := 255
      serR := 255, serG := 255, serB := 255, serA := 1
      serializedHex := "#ffffff" } rfl rfl rfl
  exact ⟨rfl, h.1, h.2.1⟩

set_option maxRecDepth 4000 in
/-- C2: the default palette is a fixed 256-entry sequence (a pure constant
in this embedding, so every access yields the identical sequence): entries
16–231 are the fully opaque color-cube colors with
`red = v[(i-16)/36 % 6]`, `green = v[(i-16)/6 % 6]`, `blue = v[(i-16) % 6]`
over the step table `[0x00, 0x5f, 0x87, 0xaf, 0xd7, 0xff]`, and entries
232–255 are the fully opaque greys `8 + 10·(i-232)` on all three channels. -/
theorem claimC2 :
    v = [0x00, 0x5f, 0x87, 0xaf, 0xd7, 0xff]
    ∧ DEFAULT_ANSI_COLORS.length = 256
    ∧ (∀ k : Fin 216,
        redOf (ansiAt (16 + k.val)) = v.getD (k.val / 36 % 6) 0
        ∧ greenOf (ansiAt (16 + k.val)) = v.getD (k.val / 6 % 6) 0
        ∧ blueOf (ansiAt (16 + k.val)) = v.getD (k.val % 6) 0
        ∧ alphaOf (ansiAt (16 + k.val)) = 255)
    ∧ (∀ j : Fin 24,
        redOf (ansiAt (232 + j.val)) = 8 + 10 * j.val
        ∧ greenOf (ansiAt (232 + j.val)) = 8 + 10 * j.val
        ∧ blueOf (ansiAt (232 + j.val)) = 8 + 10 * j.val
        ∧ alphaOf (ansiAt (232 + j.val)) = 255) := by
  refine ⟨rfl, default_ansi_length, by decide, by decide⟩

theorem setTheme_foreground (e : Engine) (t : ITheme) (m : ColorManager) :
    (setTheme e t m).colors.foreground
      = (parseColor e t.foreground DEFAULT_FOREGROUND m.allowTransparency).1 := rfl

theorem setTheme_background (e : Engine) (t : ITheme) (m : ColorManager) :
    (setTheme e t m).colors.background
      = (parseColor e t.background DEFAULT_BACKGROUND m.allowTransparency).1 := rfl

theorem setTheme_cursor (e : Engine) (t : ITheme) (m : ColorManager) :
    (setTheme e t m).colors.cursor
      = (parseColor e t.cursor DEFAULT_CURSOR true).1 := rfl

theorem setTheme_cursorAccent (e : Engine) (t : ITheme) (m : ColorManager) :
    (setTheme e t m).colors.cursorAccent
      = (parseColor e t.cursorAccent DEFAULT_CURSOR_ACCENT true).1 := rfl

theorem setTheme_selectionTransparent (e : Engine) (t : ITheme) (m : ColorManager) :
    (setTheme e t m).colors.selectionTransparent
      = (if color.isOpaqueColor (parseColor e t.selection DEFAULT_SELECTION true).1 then
          color.opacity (parseColor e t.selection DEFAULT_SELECTION true).1 (3 / 10)
        else (parseColor e t.selection DEFAULT_SELECTION true).1) := rfl

theorem setTheme_selectionOpaque2 (e : Engine) (t : ITheme) (m : ColorManager) :
    (setTheme e t m).colors.selectionOpaqueColor
      = color.blend (parseColor e t.background DEFAULT_BACKGROUND m.allowTransparency).1
          (parseColor e t.selection DEFAULT_SELECTION true).1 := rfl

theorem setTheme_selectionForeground (e : Engine) (t : ITheme) (m : ColorManager) :
    (setTheme e t m).colors.selectionForeground
      = (let sf0 : Option IColor :=
          match t.selectionForeground with
          | none => none
          | some s =>
            if s = "" then none
            else some (parseColor e (some s) nullColor m.allowTransparency).1;
        if sf0 = some nullColor then none else sf0) := rfl

theorem setTheme_restoreColors (e : Engine) (t : ITheme) (m : ColorManager) :
    (setTheme e t m).restoreColors
      = { foreground := (setTheme e t m).colors.foreground
          background := (setTheme e t m).colors.background
          cursor := (setTheme e t m).colors.cursor
          ansi := (setTheme e t m).colors.ansi } := rfl

theorem restoreColor_none_structural (m : ColorManager) :
    structuralEq (restoreColor m none).colors m.colors :=
  ⟨rfl, rfl, rfl, rfl, rfl, rfl, rfl⟩

theorem themeAnsi_idem (e : Engine) (t : ITheme) (aT : Bool)
    (l : List (Option IColor)) :
    themeAnsi e t aT (themeAnsi e t aT l) = themeAnsi e t aT l := by
  apply List.ext
  intro n
  rw [themeAnsi_get? e t aT (themeAnsi e t aT l) n, themeAnsi_get? e t aT l n]
  cases hext : t.extendedAnsi with
  | none =>
    simp only
    by_cases h16 : n < 16
    · rw [if_pos h16, if_pos h16]
    · rw [if_neg h16, if_neg h16]
  | some ext =>
    simp only
    by_cases h16 : n < 16
    · rw [if_pos h16, if_pos h16]
    · rw [if_neg h16, if_neg h16]
      by_cases hcc : n < max (ext.length + 16) 256
      · rw [if_pos hcc, if_pos hcc]
      · rw [if_neg hcc, if_neg hcc]

/-- C10: `setTheme` is idempotent — applying the same theme twice from any
starting state yields the identical Color Manager state (field by field,
including every ANSI entry, `selectionOpaque`, `selectionForeground`, the
restore snapshot, the cache and the flag) as applying it once. -/
theorem claimC10 (e : Engine) (t : ITheme) (m : ColorManager) :
    setTheme e t (setTheme e t m) = setTheme e t m := by
  have haT := setTheme_allowTransparency e t m
  have hcolors : (setTheme e t (setTheme e t m)).colors = (setTheme e t m).colors := by
    apply ColorSet.ext
    · rw [setTheme_foreground, setTheme_foreground, haT]
    · rw [setTheme_background, setTheme_background, haT]
    · rw [setTheme_cursor, setTheme_cursor]
    · rw [setTheme_cursorAccent, setTheme_cursorAccent]
    · rw [setTheme_selectionTransparent, setTheme_selectionTransparent]
    · rw [setTheme_selectionOpaque2, setTheme_selectionOpaque2, haT]
    · rw [setTheme_selectionForeground, setTheme_selectionForeground, haT]
    · rw [setTheme_colors_ansi, setTheme_colors_ansi, haT]
      exact themeAnsi_idem e t m.allowTransparency m.colors.ansi
  apply ColorManager.ext
  · exact hcolors
  · rw [setTheme_restoreColors, setTheme_restoreColors, hcolors]
  · rw [setTheme_contrastCache, setTheme_contrastCache]
  · rw [haT, setTheme_allowTransparency, setTheme_allowTransparency]

/-- C9, corrected: `setTheme({})` resets the seven structural fields and ANSI
slots 0–15 to the built-in defaults, but ANSI slots 16–255 are left exactly
as they were (the `extendedAnsi` loop only runs when the theme supplies an
`extendedAnsi` list), so the whole Color Set equals the built-in defaults
only when the extended slots already held them. -/
theorem claimC9 (e : Engine) (m : ColorManager) :
    (setTheme e emptyTheme m).colors.foreground = DEFAULT_FOREGROUND
    ∧ (setTheme e emptyTheme m).colors.background = DEFAULT_BACKGROUND
    ∧ (setTheme e emptyTheme m).colors.cursor = DEFAULT_CURSOR
    ∧ (setTheme e emptyTheme m).colors.cursorAccent = DEFAULT_CURSOR_ACCENT
    ∧ (setTheme e emptyTheme m).colors.selectionTransparent = DEFAULT_SELECTION
    ∧ (setTheme e emptyTheme m).colors.selectionOpaqueColor
        = color.blend DEFAULT_BACKGROUND DEFAULT_SELECTION
    ∧ (setTheme e emptyTheme m).colors.selectionForeground = none
    ∧ (∀ i, i < 16 →
        readA (setTheme e emptyTheme m).colors.ansi i = DEFAULT_ANSI_COLORS.get? i)
    ∧ (∀ i, 16 ≤ i →
        readA (setTheme e emptyTheme m).colors.ansi i = readA m.colors.ansi i) := by
  have h1 : (parseColor e emptyTheme.background DEFAULT_BACKGROUND
      m.allowTransparency).1 = DEFAULT_BACKGROUND := rfl
  have h2 : (parseColor e emptyTheme.selection DEFAULT_SELECTION true).1
      = DEFAULT_SELECTION := rfl
  refine ⟨rfl, rfl, rfl, rfl, ?_, ?_, rfl, ?_, ?_⟩
  · rw [setTheme_selectionTransparent, h2, if_neg (by decide)]
  · rw [setTheme_selectionOpaque2, h1, h2]
  · intro i hi
    rw [setTheme_colors_ansi, themeAnsi_readA]
    show (if i < 16 then standardAnsiValue e emptyTheme m.allowTransparency i
      else readA m.colors.ansi i) = _
    rw [if_pos hi]
    interval_cases i <;> rfl
  · intro i hi
    rw [setTheme_colors_ansi, themeAnsi_readA]
    show (if i < 16 then standardAnsiValue e emptyTheme m.allowTransparency i
      else readA m.colors.ansi i) = _
    rw [if_neg (by omega)]

theorem claimC9_witness :
    (setTheme nullEngine emptyTheme (initManager true)).colors.foreground = DEFAULT_FOREGROUND
    ∧ readA (setTheme nullEngine emptyTheme (initManager true)).colors.ansi 0
        = DEFAULT_ANSI_COLORS.get? 0
    ∧ readA (setTheme nullEngine emptyTheme (initManager true)).colors.ansi 16
        = readA (initManager true).colors.ansi 16 :=
  ⟨(claimC9 nullEngine (initManager true)).1,
   (claimC9 nullEngine (initManager true)).2.2.2.2.2.2.2.1 0 (by omega),
   (claimC9 nullEngine (initManager true)).2.2.2.2.2.2.2.2 16 (by omega)⟩

theorem claimC9_counter :
    Reachable sampleEngine
      (setTheme sampleEngine themeOneExtended (initManager true))
    ∧ readA (setTheme sampleEngine emptyTheme
        (setTheme sampleEngine themeOneExtended (initManager true))).colors.ansi 16
      = some { css := "#ff0000", rgba := 4278190335 }
    ∧ DEFAULT_ANSI_COLORS.get? 16 = some { css := "#000000", rgba := 255 }
    ∧ readA (setTheme sampleEngine emptyTheme
        (setTheme sampleEngine themeOneExtended (initManager true))).colors.ansi 16
      ≠ DEFAULT_ANSI_COLORS.get? 16 := by
  have h1 : readA (setTheme sampleEngine emptyTheme
      (setTheme sampleEngine themeOneExtended (initManager true))).colors.ansi 16
      = readA (setTheme sampleEngine themeOneExtended (initManager true)).colors.ansi 16 := by
    rw [setTheme_colors_ansi, themeAnsi_readA]
    show (if 16 < 16 then _ else
      readA (setTheme sampleEngine themeOneExtended (initManager true)).colors.ansi 16) = _
    rw [if_neg (by omega)]
  have h2 : readA (setTheme sampleEngine themeOneExtended (initManager true)).colors.ansi 16
      = extendedAnsiValue sampleEngine ["#ff0000"] true 16 := by
    rw [setTheme_colors_ansi, themeAnsi_readA]
    show (if 16 < 16 then _
      else if 16 < max (List.length ["#ff0000"] + 16) 256 then
        extendedAnsiValue sampleEngine ["#ff0000"] true 16
      else readA (initManager true).colors.ansi 16) = _
    rw [if_neg (by omega), if_pos (by simp)]
  have h3 : extendedAnsiValue sampleEngine ["#ff0000"] true 16
      = some { css := "#ff0000", rgba := 4278190335 } := by decide
  have h4 : DEFAULT_ANSI_COLORS.get? 16 = some { css := "#000000", rgba := 255 } := by
    decide
  refine ⟨⟨true, [Op.theme themeOneExtended], rfl⟩, ?_, h4, ?_⟩
  · rw [h1, h2, h3]
  · rw [h1, h2, h3, h4]
    decide

/-- C3, corrected: the palette-size invariant holds only within the
documented caller contract — as long as every `setTheme`'s `extendedAnsi`
list has at most 240 entries and every `restoreColor` slot is an ANSI index
or a reserved sentinel (≤ 258), the ANSI array keeps exactly 256 defined
entries after any operation sequence.  A longer `extendedAnsi` list (or a
larger slot) extends the JavaScript array past index 255. -/
theorem claimC3 (e : Engine) (aT : Bool) (ops : List Op)
    (h : ∀ op ∈ ops, GoodOp op) :
    (applyOps e (initManager aT) ops).colors.ansi.length = 256
    ∧ ∀ i, i < 256 →
        (readA (applyOps e (initManager aT) ops).colors.ansi i).isSome = true := by
  have hinv := SizeInv_applyOps e ops (initManager aT) h (SizeInv_init aT)
  exact ⟨hinv.1, hinv.2.2.1⟩

theorem claimC3_witness :
    (∀ op ∈ [Op.theme emptyTheme, Op.restore (some 3)], GoodOp op)
    ∧ (applyOps nullEngine (initManager true)
        [Op.theme emptyTheme, Op.restore (some 3)]).colors.ansi.length = 256
    ∧ (readA (applyOps nullEngine (initManager true)
        [Op.theme emptyTheme, Op.restore (some 3)]).colors.ansi 0).isSome = true := by
  have hgood : ∀ op ∈ [Op.theme emptyTheme, Op.restore (some 3)], GoodOp op := by
    intro op hop
    rcases List.mem_cons.mp hop with h1 | h2
    · subst h1
      intro l hl
      cases hl
    · rcases List.mem_cons.mp h2 with h3 | h4
      · subst h3
        intro n hn
        cases hn
        omega
      · cases h4
  have h := claimC3 nullEngine true [Op.theme emptyTheme, Op.restore (some 3)] hgood
  exact ⟨hgood, h.1, h.2 0 (by omega)⟩

theorem claimC3_counter :
    Reachable sampleEngine (setTheme sampleEngine themeLongExtended (initManager true))
    ∧ (setTheme sampleEngine themeLongExtended (initManager true)).colors.ansi.length = 257
    ∧ (setTheme sampleEngine themeLongExtended (initManager true)).colors.ansi.length ≠ 256 := by
  have hlen : (setTheme sampleEngine themeLongExtended (initManager true)).colors.ansi.length
      = 257 := by
    rw [setTheme_colors_ansi, themeAnsi_length]
    have hext : themeLongExtended.extendedAnsi
        = some (List.replicate 241 "#ff0000") := rfl
    rw [hext]
    simp only [List.length_replicate]
    have hinit : (initManager true).colors.ansi.length = 256 := (SizeInv_init true).1
    omega
  exact ⟨⟨true, [Op.theme themeLongExtended], rfl⟩, hlen, by omega⟩

/-- C8: after the most recent `setTheme` (or after construction, when no
theme was ever applied) and any run of further non-theme operations,
`restoreColor()` with no slot puts every readable ANSI entry back to the
value it held immediately after that `setTheme` (the post-theme snapshot)
and leaves the seven structural color fields of the pre-restore state
untouched. -/
theorem claimC8 (e : Engine) (t : ITheme) (m0 : ColorManager) (aT : Bool)
    (ops : List Op) (h : ∀ op ∈ ops, NonThemeOp op) :
    ((∀ i, readA (restoreColor (applyOps e (setTheme e t m0) ops) none).colors.ansi i
        = readA (setTheme e t m0).colors.ansi i)
      ∧ structuralEq (restoreColor (applyOps e (setTheme e t m0) ops) none).colors
          (applyOps e (setTheme e t m0) ops).colors)
    ∧ ((∀ i, readA (restoreColor (applyOps e (initManager aT) ops) none).colors.ansi i
        = readA (initManager aT).colors.ansi i)
      ∧ structuralEq (restoreColor (applyOps e (initManager aT) ops) none).colors
          (applyOps e (initManager aT) ops).colors) :=
  ⟨⟨fun i => restore_after_ops e (setTheme e t m0)
      (by rw [setTheme_restore_ansi]) ops h i,
    restoreColor_none_structural _⟩,
   ⟨fun i => restore_after_ops e (initManager aT) rfl ops h i,
    restoreColor_none_structural _⟩⟩

theorem claimC8_witness :
    (∀ op ∈ [Op.restore (some 1)], NonThemeOp op)
    ∧ readA (restoreColor (applyOps nullEngine
        (setTheme nullEngine emptyTheme (initManager true)) [Op.restore (some 1)])
        none).colors.ansi 1
      = readA (setTheme nullEngine emptyTheme (initManager true)).colors.ansi 1 := by
  have hops : ∀ op ∈ [Op.restore (some 1)], NonThemeOp op := by
    intro op hop
    rcases List.mem_cons.mp hop with h1 | h2
    · subst h1
      trivial
    · cases h2
  exact ⟨hops,
    (claimC8 nullEngine emptyTheme (initManager true) true [Op.restore (some 1)] hops).1.1 1⟩
